import Mathlib

/-!
Verification development for the Plasticos transaction lifecycle engine
(`plasticos.transaction`).  The repository contains two parallel
implementations of the model:

* `Plasticos` namespace — embeds `src/Plasticos/plasticos_transaction/models/transaction.py`
  (SQL constraints, `_compute_financials` with commission tiers, `write` guard,
  `action_close` with commission freeze).
* `Addons` namespace — embeds `src/addons/plasticos_transaction/models/transaction.py`
  together with `src/addons/plasticos_commission/models/commission_service.py`
  (`compute_commission`) and the compliance service interface.

Monetary amounts are embedded as rationals.  An Odoo `UserError` raised inside
a method aborts the database transaction, so an erroring call leaves the
record unchanged; method results are `Except String` values and a rollback
wrapper restores the pre-call record on error.
-/

namespace Plasticos

/-- Posting state of an `account.move` (source compares against "posted"). -/
inductive MoveState
  | draft
  | posted
  | cancel
deriving DecidableEq, Repr

/-- An `account.move` row as seen by the transaction model: its id, its
`amount_total` and its posting state. -/
structure Move where
  id : Nat
  amount_total : ℚ
  st : MoveState
deriving DecidableEq, Repr

/-- State of a `linda.load` record (source compares against "closed"). -/
inductive LoadState
  | opened
  | closed
deriving DecidableEq, Repr

/-- Lifecycle state selection of `plasticos.transaction`. -/
inductive TxState
  | draft
  | active
  | closed
deriving DecidableEq, Repr

/-- A `plasticos.transaction` record of the `src/Plasticos` variant.  Linked
`account.move` rows are embedded inline; `commission_rule` holds the linked
rule's `percentage` when a rule is set; `commission_override_flat` is an
Odoo `fields.Float()` and therefore always reads as a float — `0.0` when the
column is unset — so it is embedded as a plain rational.  The five computed
stored fields (`revenue_total` … `net_margin`) are carried as stored
columns, kept consistent by recomputation after every mutation. -/
structure Tx where
  id : Nat
  name : String
  sale_order_id : Option Nat
  purchase_order_ids : List Nat
  linda_load : Option LoadState
  customer_invoice : Option Move
  vendor_bills : List Move
  freight_bills : List Move
  commission_rule : Option ℚ
  commission_override_flat : ℚ
  revenue_total : ℚ
  cost_total : ℚ
  gross_margin : ℚ
  commission_amount : ℚ
  net_margin : ℚ
  commission_frozen : Bool
  commission_frozen_amount : ℚ
  commission_frozen_at : Option Nat
  state : TxState
deriving DecidableEq, Repr

/-- The source's override test `rec.commission_override_flat is not False
and rec.commission_override_flat is not None`, evaluated on the value read
from the record.  Reading an Odoo `Float` field always yields a Python
float (0.0 when the column is NULL), and a float is never the `False` or
`None` singleton, so the test holds for every value the field can read. -/
def overrideTest (x : ℚ) : Bool :=
  true

/-- `_compute_financials`: recompute the five stored computed fields from the
linked documents and the commission configuration.  Because `overrideTest`
is true for every readable float, the unfrozen branch always returns the
override field (0.0 when unset) and the rule / zero fallbacks are dead code
in this variant. -/
def recompute (tx : Tx) : Tx :=
  let revenue : ℚ := match tx.customer_invoice with
    | some inv => inv.amount_total
    | none => 0
  let vendor_cost : ℚ := (tx.vendor_bills.map Move.amount_total).sum
  let freight_cost : ℚ := (tx.freight_bills.map Move.amount_total).sum
  let cost : ℚ := vendor_cost + freight_cost
  let gross : ℚ := revenue - cost
  let commission : ℚ :=
    if tx.commission_frozen then tx.commission_frozen_amount
    else if overrideTest tx.commission_override_flat then
      tx.commission_override_flat
    else match tx.commission_rule with
      | some pct => gross * pct
      | none => 0
  { tx with
    revenue_total := revenue
    cost_total := cost
    gross_margin := gross
    commission_amount := commission
    net_margin := gross - commission }

/-- The commission amount the compute method assigns to a record. -/
def commissionOf (tx : Tx) : ℚ := (recompute tx).commission_amount

def errStateAction : String := "State can only be changed via action methods."
def errNameImmutable : String := "Transaction reference cannot be modified."
def errClosedImmutable : String := "Closed transactions are immutable."
def errOverrideFrozen : String := "Commission override cannot be modified after freeze."
def errInvoiceReassign : String := "Customer invoice cannot be reassigned once set."
def errVendorLinked : String := "Vendor bill already linked to another transaction."
def errFreightLinked : String := "Freight bill already linked to another transaction."
def errInvoicePosted : String := "Customer invoice must be posted."
def errVendorPosted : String := "All vendor bills must be posted."
def errLogistics : String := "Logistics must be closed."
def errNegMargin : String := "Cannot close transaction with negative gross margin."

/-- The `vals` dictionary of a `write` call: `some` marks a key present in the
dictionary.  Many2many link writes carry the browsed records. -/
structure Vals where
  state : Option TxState := none
  name : Option String := none
  sale_order_id : Option (Option Nat) := none
  purchase_order_ids : Option (List Nat) := none
  customer_invoice : Option Move := none
  vendor_bills : Option (List Move) := none
  freight_bills : Option (List Move) := none
  commission_rule : Option (Option ℚ) := none
  commission_override_flat : Option ℚ := none
  commission_frozen : Option Bool := none
  commission_frozen_amount : Option ℚ := none
  commission_frozen_at : Option (Option Nat) := none
deriving DecidableEq, Repr

/-- The duplicate-link search of `write`: is `bill` already a member of the
given link field of a transaction other than `recId`? -/
def claimed (others : List Tx) (recId : Nat) (field : Tx → List Move)
    (bill : Move) : Bool :=
  others.any fun o => o.id ≠ recId && (field o).any fun m => m.id = bill.id

/-- The per-bill duplicate guard loop of `write` over the written link list. -/
def checkBills (others : List Tx) (recId : Nat) (field : Tx → List Move)
    (msg : String) : List Move → Except String Unit
  | [] => Except.ok ()
  | b :: rest =>
    if claimed others recId field b then Except.error msg
    else checkBills others recId field msg rest

/-- `super().write(vals)`: apply the present keys to the record. -/
def applyVals (tx : Tx) (vals : Vals) : Tx :=
  { tx with
    state := vals.state.getD tx.state
    name := vals.name.getD tx.name
    sale_order_id := vals.sale_order_id.getD tx.sale_order_id
    purchase_order_ids := vals.purchase_order_ids.getD tx.purchase_order_ids
    customer_invoice :=
      match vals.customer_invoice with
      | some m => some m
      | none => tx.customer_invoice
    vendor_bills := vals.vendor_bills.getD tx.vendor_bills
    freight_bills := vals.freight_bills.getD tx.freight_bills
    commission_rule := vals.commission_rule.getD tx.commission_rule
    commission_override_flat :=
      vals.commission_override_flat.getD tx.commission_override_flat
    commission_frozen := vals.commission_frozen.getD tx.commission_frozen
    commission_frozen_amount :=
      vals.commission_frozen_amount.getD tx.commission_frozen_amount
    commission_frozen_at := vals.commission_frozen_at.getD tx.commission_frozen_at }

/-- `write` of the `src/Plasticos` variant: the guard chain in source order,
then the field update.  `others` is the registry the duplicate-link `search`
runs over (records with `id != rec.id` are the potential conflicts). -/
def write (others : List Tx) (rec : Tx) (vals : Vals) : Except String Tx :=
  if vals.state.isSome then Except.error errStateAction
  else if vals.name.isSome then Except.error errNameImmutable
  else if rec.state = TxState.closed &&
      (vals.sale_order_id.isSome || vals.purchase_order_ids.isSome ||
       vals.customer_invoice.isSome || vals.vendor_bills.isSome ||
       vals.freight_bills.isSome || vals.commission_rule.isSome ||
       vals.commission_override_flat.isSome) then
    Except.error errClosedImmutable
  else if rec.commission_frozen && vals.commission_override_flat.isSome then
    Except.error errOverrideFrozen
  else if rec.customer_invoice.isSome && vals.customer_invoice.isSome then
    Except.error errInvoiceReassign
  else
    match checkBills others rec.id Tx.vendor_bills errVendorLinked
        (vals.vendor_bills.getD []) with
    | Except.error e => Except.error e
    | Except.ok _ =>
      match checkBills others rec.id Tx.freight_bills errFreightLinked
          (vals.freight_bills.getD []) with
      | Except.error e => Except.error e
      | Except.ok _ => Except.ok (applyVals rec vals)

/-- First close check: `not rec.customer_invoice_id or
rec.customer_invoice_id.state != "posted"`. -/
def invoiceUnposted (tx : Tx) : Bool :=
  match tx.customer_invoice with
  | some inv => inv.st ≠ MoveState.posted
  | none => true

/-- Second close check: `any(bill.state != "posted" for bill in
rec.vendor_bill_ids)`. -/
def vendorUnposted (tx : Tx) : Bool :=
  tx.vendor_bills.any fun b => b.st ≠ MoveState.posted

/-- Third close check: `rec.linda_load_id and rec.linda_load_id.state !=
"closed"`. -/
def loadOpen (tx : Tx) : Bool :=
  match tx.linda_load with
  | some l => l ≠ LoadState.closed
  | none => false

/-- Last close check: `rec.gross_margin < 0` on the stored margin. -/
def marginNegative (tx : Tx) : Bool :=
  decide (tx.gross_margin < 0)

/-- The close-time precondition failures in the order the source tests them:
customer invoice posted, all vendor bills posted, logistics load closed,
non-negative gross margin.  (The compliance hook is a no-op in this variant:
`plasticos.document` defines no `check_transaction_compliance` method, so the
`hasattr` test is false.) -/
def closeFailures (tx : Tx) : List String :=
  (if invoiceUnposted tx then [errInvoicePosted] else []) ++
  (if vendorUnposted tx then [errVendorPosted] else []) ++
  (if loadOpen tx then [errLogistics] else []) ++
  (if marginNegative tx then [errNegMargin] else [])

/-- `action_close`: re-validate the preconditions in source order, raising on
the first failure; on success freeze the commission (snapshot the current
`commission_amount`, stamp `frozen_at`) and set `state = closed`.  The field
assignments in the method body are modelled as updates of the record. -/
def action_close (tx : Tx) (now : Nat) : Except String Tx :=
  if invoiceUnposted tx then Except.error errInvoicePosted
  else if vendorUnposted tx then Except.error errVendorPosted
  else if loadOpen tx then Except.error errLogistics
  else if marginNegative tx then Except.error errNegMargin
  else
    Except.ok { tx with
      commission_frozen := true
      commission_frozen_amount := tx.commission_amount
      commission_frozen_at := some now
      state := TxState.closed }

/-- The `non_negative_margin_on_close` SQL constraint from `_sql_constraints`:
`CHECK(state != 'closed' OR gross_margin >= 0)`. -/
def checkOK (tx : Tx) : Bool :=
  tx.state ≠ TxState.closed || 0 ≤ tx.gross_margin

/-- Database commit: the row update is accepted only if the check constraint
holds; otherwise the transaction rolls back to the previous row. -/
def commit (old new : Tx) : Tx :=
  if checkOK new then new else old

/-- Operations that can touch a persisted transaction record: a `write`
(against a registry of other transactions), `action_activate`,
`action_close`, and a mutation of the linked accounting documents themselves
(which triggers recomputation of the stored computed fields). -/
inductive Op
  | wr (others : List Tx) (vals : Vals)
  | activate
  | close (now : Nat)
  | docs (f : Move → Move)

/-- Apply the document mutation of an `Op.docs` step to the linked rows. -/
def mapDocs (f : Move → Move) (tx : Tx) : Tx :=
  { tx with
    customer_invoice := tx.customer_invoice.map f
    vendor_bills := tx.vendor_bills.map f
    freight_bills := tx.freight_bills.map f }

/-- One persisted step: run the operation, recompute the stored computed
fields, and commit under the check constraint; an erroring call rolls the
record back unchanged. -/
def step (tx : Tx) : Op → Tx
  | Op.wr others vals =>
    match write others tx vals with
    | Except.ok t => commit tx (recompute t)
    | Except.error _ => tx
  | Op.activate => commit tx (recompute { tx with state := TxState.active })
  | Op.close now =>
    match action_close tx now with
    | Except.ok t => commit tx (recompute t)
    | Except.error _ => tx
  | Op.docs f => commit tx (recompute (mapDocs f tx))

/-- Run a sequence of operations against a persisted record. -/
def run (tx : Tx) : List Op → Tx
  | [] => tx
  | op :: rest => run (step tx op) rest

/-- The margin invariant of the spec: closed transactions have non-negative
gross margin. -/
def Inv (tx : Tx) : Prop :=
  tx.state = TxState.closed → 0 ≤ tx.gross_margin

end Plasticos

namespace Addons

open Plasticos (TxState MoveState LoadState)

/-- The environment an `src/addons` transaction method runs in: the
`account.move` registry (amount and posting state by id), the
`plasticos.load` states, the compliance service's verdict for this
transaction, and whether the current user is in
`plasticos_transaction.group_plasticos_manager`. -/
structure Env where
  amount : Nat → ℚ
  moveState : Nat → MoveState
  loadState : Nat → LoadState
  compliant : Bool
  isManager : Bool

/-- A `plasticos.transaction` record of the `src/addons` variant.  Link
fields hold `account.move` ids; `commission_rule` holds the linked
`plasticos.commission.rule`'s `percentage` when a rule is set. -/
structure Tx where
  id : Nat
  name : String
  sale_order_id : Option Nat
  purchase_order_ids : List Nat
  load_id : Option Nat
  customer_invoice_id : Option Nat
  vendor_bill_ids : List Nat
  freight_bill_ids : List Nat
  commission_rule : Option ℚ
  commission_locked : Bool
  commission_locked_amount : ℚ
  state : TxState
deriving DecidableEq, Repr

/-- The stored results of `_compute_financials`. -/
structure Financials where
  revenue_total : ℚ
  cost_total : ℚ
  gross_margin : ℚ
  net_margin : ℚ
deriving DecidableEq, Repr

/-- `_compute_financials` of the `src/addons` variant: note the source
assigns `net_margin = revenue - cost`, the same value as `gross_margin`. -/
def compute_financials (env : Env) (rec : Tx) : Financials :=
  let revenue : ℚ := match rec.customer_invoice_id with
    | some i => env.amount i
    | none => 0
  let vendor_cost : ℚ := (rec.vendor_bill_ids.map env.amount).sum
  let freight_cost : ℚ := (rec.freight_bill_ids.map env.amount).sum
  let cost : ℚ := vendor_cost + freight_cost
  { revenue_total := revenue
    cost_total := cost
    gross_margin := revenue - cost
    net_margin := revenue - cost }

/-- The stored `gross_margin` the commission service reads. -/
def grossMargin (env : Env) (rec : Tx) : ℚ :=
  (compute_financials env rec).gross_margin

/-- `plasticos.commission.service.compute_commission`: rule percentage times
gross margin when a rule is linked, else 0. -/
def compute_commission (env : Env) (rec : Tx) : ℚ :=
  match rec.commission_rule with
  | some pct => grossMargin env rec * pct
  | none => 0

/-- Python `x or 0.0` on a float value. -/
def orZero (x : ℚ) : ℚ := if x = 0 then 0 else x

/-- `_compute_commission`: the locked snapshot when `commission_locked`,
otherwise the commission service's amount. -/
def commissionAmount (env : Env) (rec : Tx) : ℚ :=
  if rec.commission_locked then orZero rec.commission_locked_amount
  else compute_commission env rec

def errStateAction : String := "State can only be changed via action methods."
def errNameImmutable : String := "Transaction reference cannot be modified."
def errClosedImmutable : String := "Closed transactions are immutable."
def errCommissionLock : String := "Commission cannot be modified after lock."
def errInvoiceReassign : String := "Customer invoice cannot be reassigned once set."
def errVendorLinked : String := "Vendor bill already linked to another transaction."
def errFreightLinked : String := "Freight bill already linked to another transaction."
def errInvoicePosted : String := "Customer invoice must be posted."
def errVendorPosted : String := "Vendor bills must be posted."
def errLogistics : String := "Logistics must be closed."
def errDocsMissing : String := "Required documents missing."
def errManagerOnly : String := "Only Plasticos Managers can close transactions."
def errNegMargin : String := "Cannot close transaction with negative gross margin."

/-- A many2many write command: `(4, id)` links, `(3, id)` unlinks,
`(6, 0, ids)` replaces the set. -/
inductive Cmd
  | link (id : Nat)
  | unlink (id : Nat)
  | set (ids : List Nat)
deriving DecidableEq, Repr

/-- The `vals` dictionary of a `write` call: `some` marks a present key. -/
structure Vals where
  state : Option TxState := none
  name : Option String := none
  sale_order_id : Option (Option Nat) := none
  purchase_order_ids : Option (List Nat) := none
  customer_invoice_id : Option Nat := none
  vendor_bill_ids : Option (List Cmd) := none
  freight_bill_ids : Option (List Cmd) := none
  commission_rule : Option (Option ℚ) := none
  commission_locked : Option Bool := none
  commission_locked_amount : Option ℚ := none
deriving DecidableEq, Repr

/-- The duplicate-link search: is bill `b` a member of the given link field
of a transaction other than `recId`? -/
def claimed (others : List Tx) (recId : Nat) (field : Tx → List Nat)
    (b : Nat) : Bool :=
  others.any fun o => o.id ≠ recId && b ∈ field o

/-- The inner loop of the command-6 duplicate guard. -/
def checkIds (others : List Tx) (recId : Nat) (field : Tx → List Nat)
    (msg : String) : List Nat → Except String Unit
  | [] => Except.ok ()
  | b :: rest =>
    if claimed others recId field b then Except.error msg
    else checkIds others recId field msg rest

/-- The duplicate guard loop over the written commands: commands `(4, id)`
and `(6, 0, ids)` are checked, other commands pass through. -/
def checkCmds (others : List Tx) (recId : Nat) (field : Tx → List Nat)
    (msg : String) : List Cmd → Except String Unit
  | [] => Except.ok ()
  | Cmd.link b :: rest =>
    if claimed others recId field b then Except.error msg
    else checkCmds others recId field msg rest
  | Cmd.set bs :: rest =>
    match checkIds others recId field msg bs with
    | Except.error e => Except.error e
    | Except.ok _ => checkCmds others recId field msg rest
  | Cmd.unlink _ :: rest => checkCmds others recId field msg rest

/-- A command that the duplicate guard flags: a `(4, id)` link or a
`(6, 0, ids)` member already claimed by a different transaction. -/
def conflictCmd (others : List Tx) (recId : Nat) (field : Tx → List Nat) :
    Cmd → Bool
  | Cmd.link b => claimed others recId field b
  | Cmd.set bs => bs.any (claimed others recId field)
  | Cmd.unlink _ => false

/-- Apply one many2many command to a link set. -/
def applyCmd (ids : List Nat) : Cmd → List Nat
  | Cmd.link b => if b ∈ ids then ids else ids ++ [b]
  | Cmd.unlink b => ids.filter (fun x => x ≠ b)
  | Cmd.set bs => bs

def applyCmds (ids : List Nat) (cmds : List Cmd) : List Nat :=
  cmds.foldl applyCmd ids

/-- `super().write(vals)`: apply the present keys to the record. -/
def applyVals (rec : Tx) (vals : Vals) : Tx :=
  { rec with
    state := vals.state.getD rec.state
    name := vals.name.getD rec.name
    sale_order_id := vals.sale_order_id.getD rec.sale_order_id
    purchase_order_ids := vals.purchase_order_ids.getD rec.purchase_order_ids
    customer_invoice_id :=
      match vals.customer_invoice_id with
      | some i => some i
      | none => rec.customer_invoice_id
    vendor_bill_ids :=
      match vals.vendor_bill_ids with
      | some cmds => applyCmds rec.vendor_bill_ids cmds
      | none => rec.vendor_bill_ids
    freight_bill_ids :=
      match vals.freight_bill_ids with
      | some cmds => applyCmds rec.freight_bill_ids cmds
      | none => rec.freight_bill_ids
    commission_rule := vals.commission_rule.getD rec.commission_rule
    commission_locked := vals.commission_locked.getD rec.commission_locked
    commission_locked_amount :=
      vals.commission_locked_amount.getD rec.commission_locked_amount }

/-- `write` of the `src/addons` variant: a state write is allowed only for
`active`, or for `closed` when the same vals carry `commission_locked: True`;
then the name guard, the closed-record protected set (links and commission
rule, not the lock bookkeeping fields), the post-lock rule guard, the
invoice write-once guard, and the vendor/freight duplicate-claim guards. -/
def write (others : List Tx) (rec : Tx) (vals : Vals) : Except String Tx :=
  if (match vals.state with
      | some s =>
        !(s = TxState.active ||
          (s = TxState.closed && vals.commission_locked = some true))
      | none => false : Bool) then Except.error errStateAction
  else if vals.name.isSome then Except.error errNameImmutable
  else if rec.state = TxState.closed &&
      (vals.sale_order_id.isSome || vals.purchase_order_ids.isSome ||
       vals.customer_invoice_id.isSome || vals.vendor_bill_ids.isSome ||
       vals.freight_bill_ids.isSome || vals.commission_rule.isSome) then
    Except.error errClosedImmutable
  else if rec.commission_locked && vals.commission_rule.isSome then
    Except.error errCommissionLock
  else if (match rec.customer_invoice_id, vals.customer_invoice_id with
      | some cur, some v => v ≠ cur
      | _, _ => False : Bool) then Except.error errInvoiceReassign
  else
    match checkCmds others rec.id Tx.vendor_bill_ids errVendorLinked
        (vals.vendor_bill_ids.getD []) with
    | Except.error e => Except.error e
    | Except.ok _ =>
      match checkCmds others rec.id Tx.freight_bill_ids errFreightLinked
          (vals.freight_bill_ids.getD []) with
      | Except.error e => Except.error e
      | Except.ok _ => Except.ok (applyVals rec vals)

/-- `action_activate`: `self.state = "active"` assigns through `write`. -/
def action_activate (others : List Tx) (rec : Tx) : Except String Tx :=
  write others rec { state := some TxState.active }

/-- `action_close` of the `src/addons` variant: under the row lock,
re-validate invoice posting, vendor bill posting, logistics, compliance,
the manager group and the margin (raising on the first failure), then
compute the commission through the service and commit the lock and the
closed state through `write`. -/
def invoiceUnposted (env : Env) (rec : Tx) : Bool :=
  match rec.customer_invoice_id with
  | some i => env.moveState i ≠ MoveState.posted
  | none => true

def vendorUnposted (env : Env) (rec : Tx) : Bool :=
  rec.vendor_bill_ids.any fun b => env.moveState b ≠ MoveState.posted

def loadOpen (env : Env) (rec : Tx) : Bool :=
  match rec.load_id with
  | some l => env.loadState l ≠ LoadState.closed
  | none => false

def marginNegative (env : Env) (rec : Tx) : Bool :=
  decide (grossMargin env rec < 0)

def action_close (env : Env) (others : List Tx) (rec : Tx) :
    Except String Tx :=
  if invoiceUnposted env rec then Except.error errInvoicePosted
  else if vendorUnposted env rec then Except.error errVendorPosted
  else if loadOpen env rec then Except.error errLogistics
  else if !env.compliant then Except.error errDocsMissing
  else if !env.isManager then Except.error errManagerOnly
  else if marginNegative env rec then Except.error errNegMargin
  else
    write others rec
      { commission_locked_amount := some (compute_commission env rec)
        commission_locked := some true
        state := some TxState.closed }

/-- The close-time precondition failures in the order the source tests
them. -/
def closeFailures (env : Env) (rec : Tx) : List String :=
  (if invoiceUnposted env rec then [errInvoicePosted] else []) ++
  (if vendorUnposted env rec then [errVendorPosted] else []) ++
  (if loadOpen env rec then [errLogistics] else []) ++
  (if !env.compliant then [errDocsMissing] else []) ++
  (if !env.isManager then [errManagerOnly] else []) ++
  (if marginNegative env rec then [errNegMargin] else [])

/-- An erroring Odoo call rolls back: the persisted record after a close
attempt is the method's result on success and the unchanged record on
error. -/
def runClose (env : Env) (others : List Tx) (rec : Tx) : Tx :=
  match action_close env others rec with
  | Except.ok t => t
  | Except.error _ => rec

end Addons

/-! Concrete records used to evaluate the embedded code: a posted customer
invoice of 1000 and a posted vendor bill of 600 (the spec's scenario
amounts), with variations for the commission configuration. -/

/-- A posted `account.move` with the given id and amount. -/
def pMove (i : Nat) (a : ℚ) : Plasticos.Move :=
  { id := i, amount_total := a, st := Plasticos.MoveState.posted }

/-- Baseline `src/Plasticos` record: active, invoice 1000, vendor bill 600,
stored computed fields consistent, no commission configuration. -/
def pBase : Plasticos.Tx :=
  { id := 1
    name := "PTX-1"
    sale_order_id := none
    purchase_order_ids := []
    linda_load := none
    customer_invoice := some (pMove 1 1000)
    vendor_bills := [pMove 2 600]
    freight_bills := []
    commission_rule := none
    commission_override_flat := 0
    revenue_total := 1000
    cost_total := 600
    gross_margin := 400
    commission_amount := 0
    net_margin := 400
    commission_frozen := false
    commission_frozen_amount := 0
    commission_frozen_at := none
    state := Plasticos.TxState.active }

/-- Frozen variation: snapshot amount 7. -/
def pFrozen : Plasticos.Tx :=
  { pBase with commission_frozen := true, commission_frozen_amount := 7 }

/-- Variation with a flat override of 40 written into the field. -/
def pOverride40 : Plasticos.Tx :=
  { pBase with commission_override_flat := 40 }

/-- Rule variation: 10 percent commission rule. -/
def pRule : Plasticos.Tx :=
  { pBase with commission_rule := some (1/10) }

/-- Fresh draft record for lifecycle runs. -/
def pDraft : Plasticos.Tx :=
  { pBase with state := Plasticos.TxState.draft }

/-- Closed variation with the commission frozen, as `action_close` leaves
it. -/
def pClosed : Plasticos.Tx :=
  { pBase with
    state := Plasticos.TxState.closed
    commission_frozen := true
    commission_frozen_amount := 0
    commission_frozen_at := some 0 }

/-- Scenario-3 record: the vendor bill is still in draft posting state. -/
def pVendorDraft : Plasticos.Tx :=
  { pBase with
    vendor_bills := [{ id := 2, amount_total := 600,
                       st := Plasticos.MoveState.draft }] }

/-- Standard addons environment: invoice 1 of 1000, vendor bill 2 of 600,
invoice 10 of 500, everything posted, loads closed, compliant, manager. -/
def envStd : Addons.Env :=
  { amount := fun i => if i = 1 then 1000 else if i = 2 then 600 else
      if i = 10 then 500 else 0
    moveState := fun _ => Plasticos.MoveState.posted
    loadState := fun _ => Plasticos.LoadState.closed
    compliant := true
    isManager := true }

/-- Environment with the invoice still in draft and an upside-down margin:
invoice 1 of 100 (draft), vendor bill 2 of 600 (posted). -/
def envBad : Addons.Env :=
  { amount := fun i => if i = 1 then 100 else if i = 2 then 600 else 0
    moveState := fun i => if i = 1 then Plasticos.MoveState.draft
      else Plasticos.MoveState.posted
    loadState := fun _ => Plasticos.LoadState.closed
    compliant := true
    isManager := true }

/-- Baseline `src/addons` record: active, invoice 1, vendor bill 2. -/
def aBase : Addons.Tx :=
  { id := 1
    name := "ATX-1"
    sale_order_id := none
    purchase_order_ids := []
    load_id := none
    customer_invoice_id := some 1
    vendor_bill_ids := [2]
    freight_bill_ids := []
    commission_rule := none
    commission_locked := false
    commission_locked_amount := 0
    state := Plasticos.TxState.active }

/-- Rule variation: 10 percent commission rule. -/
def aRule : Addons.Tx :=
  { aBase with commission_rule := some (1/10) }

/-- Locked variation: locked snapshot of 9. -/
def aLocked : Addons.Tx :=
  { aBase with commission_locked := true, commission_locked_amount := 9 }

/-- An already-closed record: invoice 10 (500, posted), no bills, 10 percent
rule, commission locked at 40 (the margin has drifted since the original
close, which the addons variant does not constrain). -/
def aClosed : Addons.Tx :=
  { id := 1
    name := "ATX-C"
    sale_order_id := none
    purchase_order_ids := []
    load_id := none
    customer_invoice_id := some 10
    vendor_bill_ids := []
    freight_bill_ids := []
    commission_rule := some (1/10)
    commission_locked := true
    commission_locked_amount := 40
    state := Plasticos.TxState.closed }

/-- The record a second `action_close` on `aClosed` commits: the locked
snapshot overwritten with the freshly recomputed 50. -/
def aClosed2 : Addons.Tx :=
  { aClosed with commission_locked_amount := 50 }

/-- Owner of customer invoice 7. -/
def aInvOwner : Addons.Tx :=
  { aBase with id := 11, customer_invoice_id := some 7 }

/-- A second record with an empty invoice slot. -/
def aInvEmpty : Addons.Tx :=
  { aBase with id := 12, customer_invoice_id := none }

/-- Owner of vendor bill 5. -/
def aBillOwner : Addons.Tx :=
  { aBase with id := 13, vendor_bill_ids := [5] }

/-- A second record trying to claim vendor bill 5. -/
def aBillClaimer : Addons.Tx :=
  { aBase with id := 14, vendor_bill_ids := [] }

/-- Owner of freight bill 6. -/
def aFreightOwner : Addons.Tx :=
  { aBase with id := 15, freight_bill_ids := [6] }

/-- A `vals` dictionary holding only vendor-bill link commands. -/
def vendorVals (cmds : List Addons.Cmd) : Addons.Vals :=
  { vendor_bill_ids := some cmds }

/-- A `vals` dictionary holding only freight-bill link commands. -/
def freightVals (cmds : List Addons.Cmd) : Addons.Vals :=
  { freight_bill_ids := some cmds }

deriving instance DecidableEq for Except

instance (tx : Plasticos.Tx) : Decidable (Plasticos.Inv tx) := by
  unfold Plasticos.Inv
  infer_instance

theorem Addons.orZero_eq (x : ℚ) : Addons.orZero x = x := by
  unfold Addons.orZero
  split <;> simp_all

/-- C1 (code bug, `src/Plasticos` variant): the override test of the source,
`commission_override_flat is not False and is not None` is always true for
a `Float` field (which reads 0.0 when unset), so the unfrozen branch
returns the override field unconditionally and the rule branch the claim
asserts is dead code: with a 10 percent rule, no override and gross margin
400, `_compute_financials` yields commission 0, not 40.  The `src/addons`
commission service implements the claimed rule tier (40 at the same data),
and the frozen tier behaves as claimed in both variants. -/
theorem plasticos_rule_branch_dead :
    pRule.commission_frozen = false ∧
    pRule.commission_rule = some (1/10) ∧
    pRule.commission_override_flat = 0 ∧
    (Plasticos.recompute pRule).gross_margin = 400 ∧
    Plasticos.commissionOf pRule = 0 ∧
    Plasticos.commissionOf pRule ≠
      (Plasticos.recompute pRule).gross_margin * (1/10) ∧
    Plasticos.commissionOf pFrozen = pFrozen.commission_frozen_amount ∧
    Addons.commissionAmount envStd aRule =
      Addons.grossMargin envStd aRule * (1/10) ∧
    Addons.commissionAmount envStd aRule = 40 := by
  refine ⟨rfl, rfl, rfl, ?_, ?_, ?_, ?_, ?_, ?_⟩ <;>
    norm_num [Plasticos.commissionOf, Plasticos.recompute,
      Plasticos.overrideTest, Addons.commissionAmount,
      Addons.compute_commission, Addons.grossMargin,
      Addons.compute_financials, pRule, pFrozen, pBase, pMove, envStd,
      aRule, aBase]

/-- C4: once the commission is frozen (locked), the computed commission
equals the stored snapshot, and replacing the commission rule (or its
percentage) does not change the computed commission, in both variants. -/
theorem frozen_commission_stable (tx : Plasticos.Tx) (env : Addons.Env)
    (rec : Addons.Tx) :
    (tx.commission_frozen = true →
      Plasticos.commissionOf tx = tx.commission_frozen_amount ∧
      ∀ r : Option ℚ,
        Plasticos.commissionOf { tx with commission_rule := r } =
          Plasticos.commissionOf tx) ∧
    (rec.commission_locked = true →
      Addons.commissionAmount env rec = rec.commission_locked_amount ∧
      ∀ r : Option ℚ,
        Addons.commissionAmount env { rec with commission_rule := r } =
          Addons.commissionAmount env rec) := by
  constructor
  · intro h
    constructor
    · simp [Plasticos.commissionOf, Plasticos.recompute, h]
    · intro r
      simp [Plasticos.commissionOf, Plasticos.recompute, h]
  · intro h
    constructor
    · simp [Addons.commissionAmount, h, Addons.orZero_eq]
    · intro r
      simp [Addons.commissionAmount, h, Addons.orZero_eq]

theorem frozen_commission_stable_witness :
    Plasticos.commissionOf pFrozen = pFrozen.commission_frozen_amount ∧
    Plasticos.commissionOf { pFrozen with commission_rule := some (1/2) } =
      Plasticos.commissionOf pFrozen ∧
    Addons.commissionAmount envStd aLocked =
      aLocked.commission_locked_amount ∧
    Addons.commissionAmount envStd { aLocked with commission_rule := some (1/2) } =
      Addons.commissionAmount envStd aLocked :=
  ⟨((frozen_commission_stable pFrozen envStd aLocked).1 rfl).1,
   ((frozen_commission_stable pFrozen envStd aLocked).1 rfl).2 (some (1/2)),
   ((frozen_commission_stable pFrozen envStd aLocked).2 rfl).1,
   ((frozen_commission_stable pFrozen envStd aLocked).2 rfl).2 (some (1/2))⟩

/-- C10: on a closed record, a write touching only the freeze bookkeeping
fields (`commission_frozen`/`commission_frozen_amount` in the
`src/Plasticos` variant, `commission_locked`/`commission_locked_amount` in
the `src/addons` variant) passes every guard of `write`, so the frozen
snapshot itself can be overwritten after close. -/
theorem freeze_fields_writable_after_close
    (tx : Plasticos.Tx) (others : List Plasticos.Tx) (b : Bool) (a : ℚ)
    (rec : Addons.Tx) (othersA : List Addons.Tx) (c : Bool) (d : ℚ)
    (htx : tx.state = Plasticos.TxState.closed)
    (hrec : rec.state = Plasticos.TxState.closed) :
    Plasticos.write others tx
        { commission_frozen := some b, commission_frozen_amount := some a } =
      Except.ok (Plasticos.applyVals tx
        { commission_frozen := some b, commission_frozen_amount := some a }) ∧
    (Plasticos.applyVals tx
        { commission_frozen := some b,
          commission_frozen_amount := some a }).commission_frozen_amount = a ∧
    Addons.write othersA rec
        { commission_locked := some c, commission_locked_amount := some d } =
      Except.ok (Addons.applyVals rec
        { commission_locked := some c, commission_locked_amount := some d }) ∧
    (Addons.applyVals rec
        { commission_locked := some c,
          commission_locked_amount := some d }).commission_locked_amount = d := by
  refine ⟨?_, ?_, ?_, ?_⟩
  · simp [Plasticos.write, Plasticos.checkBills]
  · simp [Plasticos.applyVals]
  · simp [Addons.write, Addons.checkCmds]
  · simp [Addons.applyVals]

theorem freeze_fields_writable_after_close_witness :
    Plasticos.write [] pClosed
        { commission_frozen := some false, commission_frozen_amount := some 123 } =
      Except.ok (Plasticos.applyVals pClosed
        { commission_frozen := some false, commission_frozen_amount := some 123 }) ∧
    (Plasticos.applyVals pClosed
        { commission_frozen := some false,
          commission_frozen_amount := some 123 }).commission_frozen_amount = 123 ∧
    Addons.write [] aClosed
        { commission_locked := some false, commission_locked_amount := some 321 } =
      Except.ok (Addons.applyVals aClosed
        { commission_locked := some false, commission_locked_amount := some 321 }) ∧
    (Addons.applyVals aClosed
        { commission_locked := some false,
          commission_locked_amount := some 321 }).commission_locked_amount = 321 :=
  freeze_fields_writable_after_close pClosed [] false 123 aClosed [] false 321
    rfl rfl

/-- C7 (code bug, `src/addons` variant): with invoice 1000, vendor bill 600
and a 10 percent rule, `_compute_financials` assigns `net_margin = 400`,
identical to `gross_margin`, not `gross_margin - commission_amount = 360`;
the `src/Plasticos` variant of the same model computes 360. -/
theorem addons_net_margin_ignores_commission :
    (Addons.compute_financials envStd aRule).revenue_total = 1000 ∧
    (Addons.compute_financials envStd aRule).cost_total = 600 ∧
    (Addons.compute_financials envStd aRule).gross_margin = 400 ∧
    Addons.commissionAmount envStd aRule = 40 ∧
    (Addons.compute_financials envStd aRule).net_margin = 400 ∧
    (Addons.compute_financials envStd aRule).net_margin ≠
      (Addons.compute_financials envStd aRule).gross_margin -
        Addons.commissionAmount envStd aRule ∧
    (∀ tx : Plasticos.Tx, (Plasticos.recompute tx).net_margin =
      (Plasticos.recompute tx).gross_margin -
        (Plasticos.recompute tx).commission_amount) ∧
    Plasticos.commissionOf pOverride40 = 40 ∧
    (Plasticos.recompute pOverride40).net_margin = 360 := by
  refine ⟨?_, ?_, ?_, ?_, ?_, ?_, fun tx => ?_, ?_, ?_⟩ <;>
    norm_num [Addons.compute_financials, Addons.commissionAmount,
      Addons.compute_commission, Addons.grossMargin, Addons.orZero,
      Plasticos.commissionOf, Plasticos.recompute, Plasticos.overrideTest,
      envStd, aRule, aBase, pOverride40, pBase, pMove]

/-- C6 (code bug): `action_close` has no already-closed guard, so a second
close on a closed record does not raise (the repository's own test
`test_double_close_attempt` expects a `UserError`); it re-runs the checks
and, when they pass, overwrites the locked commission snapshot (40 becomes
the freshly recomputed 50) through a `write` the guards allow. -/
theorem second_close_succeeds_overwrites :
    aClosed.state = Plasticos.TxState.closed ∧
    aClosed.commission_locked_amount = 40 ∧
    Addons.action_close envStd [] aClosed = Except.ok aClosed2 ∧
    aClosed2.commission_locked_amount = 50 ∧
    aClosed2.state = Plasticos.TxState.closed := by
  refine ⟨rfl, by norm_num [aClosed], ?_, by norm_num [aClosed2, aClosed], rfl⟩
  norm_num [Addons.action_close, Addons.invoiceUnposted, Addons.vendorUnposted,
    Addons.loadOpen, Addons.marginNegative, Addons.grossMargin,
    Addons.compute_financials, Addons.compute_commission, Addons.write,
    Addons.checkCmds, Addons.applyVals, Addons.applyCmds, envStd, aClosed,
    aClosed2]

/-- C5 counterexample: `action_activate` (a `write` with `state = "active"`,
which the state guard always allows) succeeds on a closed record, moving it
back from `closed` to `active`. -/
theorem closed_reactivation_possible_cex :
    aClosed.state = Plasticos.TxState.closed ∧
    Addons.action_activate [] aClosed =
      Except.ok { aClosed with state := Plasticos.TxState.active } := by
  refine ⟨rfl, ?_⟩
  norm_num [Addons.action_activate, Addons.write, Addons.checkCmds,
    Addons.applyVals, aClosed]

/-- C5 (amended): a `write` can never set the state to `draft`, and can set
it to `closed` only when the same vals carry `commission_locked: True` (the
close path); the backward-to-draft part of the forward-only claim holds,
while `closed` to `active` remains reachable. -/
theorem state_never_returns_to_draft (others : List Addons.Tx)
    (rec : Addons.Tx) (vals : Addons.Vals) :
    (vals.state = some Plasticos.TxState.draft →
      Addons.write others rec vals = Except.error Addons.errStateAction) ∧
    (vals.state = some Plasticos.TxState.closed →
      vals.commission_locked ≠ some true →
      Addons.write others rec vals = Except.error Addons.errStateAction) := by
  constructor
  · intro h
    simp [Addons.write, h]
  · intro h h2
    simp [Addons.write, h, h2]

theorem state_never_returns_to_draft_witness :
    Addons.write [] aClosed { state := some Plasticos.TxState.draft } =
      Except.error Addons.errStateAction ∧
    Addons.write [] aClosed { state := some Plasticos.TxState.closed } =
      Except.error Addons.errStateAction :=
  ⟨(state_never_returns_to_draft [] aClosed
      { state := some Plasticos.TxState.draft }).1 rfl,
   (state_never_returns_to_draft [] aClosed
      { state := some Plasticos.TxState.closed }).2 rfl (by decide)⟩

/-- C9 counterexample: customer invoice 7 is already claimed by one
transaction, yet a `write` on a second transaction whose invoice slot is
empty claims the same invoice without any conflict error — the invoice
guard only fires when the writing record already has an invoice, and the
`src/addons` module declares no backing uniqueness constraint. -/
theorem invoice_double_claim_cex :
    aInvOwner.customer_invoice_id = some 7 ∧
    aInvOwner.id ≠ aInvEmpty.id ∧
    Addons.write [aInvOwner] aInvEmpty { customer_invoice_id := some 7 } =
      Except.ok { aInvEmpty with customer_invoice_id := some 7 } := by
  decide

theorem Addons.close_first_failure (env : Addons.Env)
    (others : List Addons.Tx) (rec : Addons.Tx)
    (h : Addons.closeFailures env rec ≠ []) :
    Addons.action_close env others rec =
      Except.error ((Addons.closeFailures env rec).headD "") := by
  unfold Addons.action_close Addons.closeFailures at *
  by_cases h1 : Addons.invoiceUnposted env rec = true <;>
    by_cases h2 : Addons.vendorUnposted env rec = true <;>
    by_cases h3 : Addons.loadOpen env rec = true <;>
    by_cases h4 : env.compliant = true <;>
    by_cases h5 : env.isManager = true <;>
    by_cases h6 : Addons.marginNegative env rec = true <;>
    simp_all

theorem Plasticos.close_error_head (tx : Plasticos.Tx) (now : Nat)
    (h : Plasticos.closeFailures tx ≠ []) :
    Plasticos.action_close tx now =
      Except.error ((Plasticos.closeFailures tx).headD "") := by
  unfold Plasticos.action_close Plasticos.closeFailures at *
  by_cases h1 : Plasticos.invoiceUnposted tx = true <;>
    by_cases h2 : Plasticos.vendorUnposted tx = true <;>
    by_cases h3 : Plasticos.loadOpen tx = true <;>
    by_cases h4 : Plasticos.marginNegative tx = true <;>
    simp_all

/-- C2 counterexample: with the invoice unposted and the margin negative at
once, `action_close` raises only the first failed check's message — the
error does not enumerate the second failure. -/
theorem close_error_not_aggregated_cex :
    Addons.invoiceUnposted envBad aBase = true ∧
    Addons.marginNegative envBad aBase = true ∧
    Addons.closeFailures envBad aBase =
      [Addons.errInvoicePosted, Addons.errNegMargin] ∧
    Addons.action_close envBad [] aBase =
      Except.error Addons.errInvoicePosted := by
  refine ⟨rfl, ?_, ?_, ?_⟩
  · norm_num [Addons.marginNegative, Addons.grossMargin,
      Addons.compute_financials, envBad, aBase]
  · norm_num [Addons.closeFailures, Addons.invoiceUnposted,
      Addons.vendorUnposted, Addons.loadOpen, Addons.marginNegative,
      Addons.grossMargin, Addons.compute_financials, envBad, aBase] <;>
      decide
  · norm_num [Addons.action_close, Addons.invoiceUnposted, envBad, aBase] <;>
      decide

/-- C2 (amended): a failed close raises a single error naming only the
first failed check in the fixed order invoice → vendor bills → load →
compliance → authorization → margin; it does not aggregate the others. -/
theorem close_reports_first_failed_check (env : Addons.Env)
    (others : List Addons.Tx) (rec : Addons.Tx)
    (h : Addons.closeFailures env rec ≠ []) :
    Addons.action_close env others rec =
      Except.error ((Addons.closeFailures env rec).headD "") :=
  Addons.close_first_failure env others rec h

theorem close_reports_first_failed_check_witness :
    Addons.closeFailures envBad aBase ≠ [] ∧
    Addons.action_close envBad [] aBase =
      Except.error ((Addons.closeFailures envBad aBase).headD "") :=
  ⟨by
    norm_num [Addons.closeFailures, Addons.invoiceUnposted,
      Addons.vendorUnposted, Addons.loadOpen, Addons.marginNegative,
      Addons.grossMargin, Addons.compute_financials, envBad, aBase],
   close_reports_first_failed_check envBad [] aBase (by
    norm_num [Addons.closeFailures, Addons.invoiceUnposted,
      Addons.vendorUnposted, Addons.loadOpen, Addons.marginNegative,
      Addons.grossMargin, Addons.compute_financials, envBad, aBase])⟩

theorem Plasticos.checkOK_inv (tx : Plasticos.Tx)
    (h : Plasticos.checkOK tx = true) : Plasticos.Inv tx := by
  unfold Plasticos.checkOK at h
  unfold Plasticos.Inv
  intro hs
  rw [hs] at h
  simpa using h

theorem Plasticos.commit_inv (old new : Plasticos.Tx)
    (h : Plasticos.Inv old) : Plasticos.Inv (Plasticos.commit old new) := by
  unfold Plasticos.commit
  split
  · exact Plasticos.checkOK_inv _ (by assumption)
  · exact h

theorem Plasticos.step_inv (tx : Plasticos.Tx) (op : Plasticos.Op)
    (h : Plasticos.Inv tx) : Plasticos.Inv (Plasticos.step tx op) := by
  cases op with
  | wr others vals =>
    unfold Plasticos.step
    rcases hw : Plasticos.write others tx vals with e | t
    · simpa [hw] using h
    · simp only [hw]
      exact Plasticos.commit_inv _ _ h
  | activate =>
    exact Plasticos.commit_inv _ _ h
  | close now =>
    unfold Plasticos.step
    rcases hw : Plasticos.action_close tx now with e | t
    · simpa [hw] using h
    · simp only [hw]
      exact Plasticos.commit_inv _ _ h
  | docs f =>
    exact Plasticos.commit_inv _ _ h

/-- C3: over any sequence of operations (guarded writes, activation, close,
mutation of the linked documents with recomputation), a record satisfying
the margin invariant keeps satisfying it: the close path checks
`gross_margin >= 0` before closing, and every commit is gated by the
`non_negative_margin_on_close` check constraint. -/
theorem closed_implies_nonneg_margin_invariant (tx : Plasticos.Tx)
    (ops : List Plasticos.Op) (h : Plasticos.Inv tx) :
    Plasticos.Inv (Plasticos.run tx ops) := by
  induction ops generalizing tx with
  | nil => simpa [Plasticos.run] using h
  | cons op rest ih =>
    simp only [Plasticos.run]
    exact ih _ (Plasticos.step_inv tx op h)

theorem closed_implies_nonneg_margin_invariant_witness :
    Plasticos.Inv pDraft ∧
    Plasticos.Inv
      (Plasticos.run pDraft [Plasticos.Op.activate, Plasticos.Op.close 0]) ∧
    (Plasticos.run pDraft
      [Plasticos.Op.activate, Plasticos.Op.close 0]).state =
        Plasticos.TxState.closed :=
  ⟨by decide,
   closed_implies_nonneg_margin_invariant pDraft
     [Plasticos.Op.activate, Plasticos.Op.close 0] (by decide),
   by
    norm_num [Plasticos.run, Plasticos.step, Plasticos.commit,
      Plasticos.checkOK, Plasticos.recompute, Plasticos.overrideTest,
      Plasticos.action_close, Plasticos.invoiceUnposted,
      Plasticos.vendorUnposted, Plasticos.loadOpen,
      Plasticos.marginNegative, pDraft, pBase, pMove]⟩

/-- C8: a close attempt that fails a precondition raises before any field
assignment, and the rollback leaves the record exactly as it was, in both
variants. -/
theorem failed_close_leaves_tx_unchanged (tx : Plasticos.Tx) (now : Nat)
    (env : Addons.Env) (others : List Addons.Tx) (rec : Addons.Tx)
    (hp : Plasticos.closeFailures tx ≠ [])
    (ha : Addons.closeFailures env rec ≠ []) :
    Plasticos.run tx [Plasticos.Op.close now] = tx ∧
    Addons.runClose env others rec = rec := by
  constructor
  · have hc := Plasticos.close_error_head tx now hp
    simp [Plasticos.run, Plasticos.step, hc]
  · have hc := Addons.close_first_failure env others rec ha
    simp [Addons.runClose, hc]

theorem failed_close_leaves_tx_unchanged_witness :
    Plasticos.closeFailures pVendorDraft ≠ [] ∧
    Plasticos.run pVendorDraft [Plasticos.Op.close 0] = pVendorDraft ∧
    pVendorDraft.state = Plasticos.TxState.active ∧
    Addons.closeFailures envBad aBase ≠ [] ∧
    Addons.runClose envBad [] aBase = aBase := by
  have h1 : Plasticos.closeFailures pVendorDraft ≠ [] := by
    norm_num [Plasticos.closeFailures, Plasticos.invoiceUnposted,
      Plasticos.vendorUnposted, Plasticos.loadOpen,
      Plasticos.marginNegative, pVendorDraft, pBase, pMove] <;> decide
  have h2 : Addons.closeFailures envBad aBase ≠ [] := by
    norm_num [Addons.closeFailures, Addons.invoiceUnposted,
      Addons.vendorUnposted, Addons.loadOpen, Addons.marginNegative,
      Addons.grossMargin, Addons.compute_financials, envBad, aBase]
  have hmain := failed_close_leaves_tx_unchanged pVendorDraft 0 envBad []
    aBase h1 h2
  exact ⟨h1, hmain.1, rfl, h2, hmain.2⟩

theorem Addons.checkIds_eq (others : List Addons.Tx) (recId : Nat)
    (field : Addons.Tx → List Nat) (msg : String) (bs : List Nat) :
    Addons.checkIds others recId field msg bs =
      (if bs.any (Addons.claimed others recId field) then Except.error msg
       else Except.ok ()) := by
  induction bs with
  | nil => simp [Addons.checkIds]
  | cons b rest ih =>
    by_cases hb : Addons.claimed others recId field b = true
    · simp [Addons.checkIds, hb]
    · simp [Addons.checkIds, hb, ih]

theorem Addons.checkCmds_eq (others : List Addons.Tx) (recId : Nat)
    (field : Addons.Tx → List Nat) (msg : String) (cmds : List Addons.Cmd) :
    Addons.checkCmds others recId field msg cmds =
      (if cmds.any (Addons.conflictCmd others recId field) then
        Except.error msg
       else Except.ok ()) := by
  induction cmds with
  | nil => simp [Addons.checkCmds]
  | cons c rest ih =>
    cases c with
    | link b =>
      by_cases hb : Addons.claimed others recId field b = true
      · simp [Addons.checkCmds, Addons.conflictCmd, hb]
      · simp [Addons.checkCmds, Addons.conflictCmd, hb, ih]
    | set bs =>
      by_cases hbs : bs.any (Addons.claimed others recId field) = true
      · simp [Addons.checkCmds, Addons.checkIds_eq, Addons.conflictCmd, hbs]
      · simp [Addons.checkCmds, Addons.checkIds_eq, Addons.conflictCmd,
          hbs, ih]
    | unlink b =>
      simp [Addons.checkCmds, Addons.conflictCmd, ih]

/-- C9 (amended): vendor-bill and freight-bill claims made through `write`
commands are exclusive: linking a bill already claimed by a different
transaction raises the corresponding linkage-conflict error.
Customer-invoice exclusivity is not enforced by this guard (see the
counterexample), and the `src/addons` module declares no backing uniqueness
constraints. -/
theorem bill_link_conflict_rejected (others : List Addons.Tx)
    (rec : Addons.Tx) (cmds : List Addons.Cmd)
    (hstate : rec.state ≠ Plasticos.TxState.closed) :
    (cmds.any
      (Addons.conflictCmd others rec.id Addons.Tx.vendor_bill_ids) = true →
      Addons.write others rec (vendorVals cmds) =
        Except.error Addons.errVendorLinked) ∧
    (cmds.any
      (Addons.conflictCmd others rec.id Addons.Tx.freight_bill_ids) = true →
      Addons.write others rec (freightVals cmds) =
        Except.error Addons.errFreightLinked) := by
  constructor
  · intro hconf
    unfold Addons.write vendorVals
    simp [Addons.checkCmds_eq, hconf, hstate]
  · intro hconf
    unfold Addons.write freightVals
    simp [Addons.checkCmds_eq, hconf, hstate]

theorem bill_link_conflict_rejected_witness :
    aBillClaimer.state ≠ Plasticos.TxState.closed ∧
    [Addons.Cmd.link 5].any
      (Addons.conflictCmd [aBillOwner] aBillClaimer.id
        Addons.Tx.vendor_bill_ids) = true ∧
    Addons.write [aBillOwner] aBillClaimer
        (vendorVals [Addons.Cmd.link 5]) =
      Except.error Addons.errVendorLinked ∧
    [Addons.Cmd.link 6].any
      (Addons.conflictCmd [aFreightOwner] aBillClaimer.id
        Addons.Tx.freight_bill_ids) = true ∧
    Addons.write [aFreightOwner] aBillClaimer
        (freightVals [Addons.Cmd.link 6]) =
      Except.error Addons.errFreightLinked :=
  ⟨by decide, by decide,
   (bill_link_conflict_rejected [aBillOwner] aBillClaimer
     [Addons.Cmd.link 5] (by decide)).1 (by decide),
   by decide,
   (bill_link_conflict_rejected [aFreightOwner] aBillClaimer
     [Addons.Cmd.link 6] (by decide)).2 (by decide)⟩
